import Mathlib

set_option maxRecDepth 100000

/-!
Verification of the 98tang-autosign repository.

Shallow embedding of the parts of the program the specification talks
about:

* `src/utils/retry.py`           — `RetryManager`
* `src/core/app.py`              — `AutoSignApp._login_with_retry`
* `src/automation/signin.py`     — `SignInManager.login`,
  `calculate_math_answer`, `sign_in`, `_check_signin_status`,
  `_perform_signin_action`, `_verify_signin_success`
* `src/browser/element_finder.py` — `ElementFinder.find_by_selectors`
* `src/notifications/telegram.py` — `ExecutionSummary.to_message`,
  `TelegramNotifier.send_batch_notification`, `_escape_markdown_v2`

Python strings are embedded as Lean `String`; substring containment
(`in` on `str`) is `List.IsInfix` on the character data.  Exceptions are
embedded as `Except`/`Option`.  The Selenium environment (which element a
selector resolves to, what the page shows at each loop attempt) is an
explicit parameter of each embedded function.
-/

namespace AutoSign

/-- Python `pat in s` on strings: `pat` occurs as a contiguous substring. -/
def strContains (s pat : String) : Bool := decide (pat.data <:+: s.data)

/-! ## Embedding of `src/utils/retry.py` — `RetryManager` -/

/-- State of `RetryManager`: `max_retries` and the per-operation counter dict.
`counters op` is `self.counters.get(op, 0)` (absent keys read as `0`,
which is how every method of the class accesses the dict). -/
structure RetryManager where
  max_retries : Nat
  counters : String → Nat

/-- A fresh `RetryManager(max_retries)` (empty counter dict). -/
def RetryManager.init (max : Nat) : RetryManager :=
  { max_retries := max, counters := fun _ => 0 }

/-- Model of `RetryManager.can_retry`: increments the operation counter, then
returns whether it is still `<= max_retries`.  Returns the flag and the
updated manager. -/
def RetryManager.can_retry (m : RetryManager) (operation : String) :
    Bool × RetryManager :=
  let n := m.counters operation + 1
  let m1 : RetryManager :=
    { m with counters := fun o => if o = operation then n else m.counters o }
  (decide (n ≤ m.max_retries), m1)

/-- Model of `RetryManager.reset`: sets the operation counter to `0`. -/
def RetryManager.reset (m : RetryManager) (operation : String) : RetryManager :=
  { m with counters := fun o => if o = operation then 0 else m.counters o }

/-- Model of `RetryManager.get_retry_count`: `counters.get(operation, 0)`. -/
def RetryManager.get_retry_count (m : RetryManager) (operation : String) : Nat :=
  m.counters operation

/-- One call against a `RetryManager`, for stating trace properties. -/
inductive RMCall where
  | can (operation : String)
  | reset (operation : String)

/-- Run a sequence of `can_retry`/`reset` calls (the Boolean results are
discarded; only the evolving counter state matters here). -/
def runCalls (m : RetryManager) : List RMCall → RetryManager
  | [] => m
  | RMCall.can op :: rest => runCalls (m.can_retry op).2 rest
  | RMCall.reset op :: rest => runCalls (m.reset op) rest

/-! ## Embedding of `src/automation/signin.py` — `calculate_math_answer`

The Python regex is `(\d+)\s*([+\-*/])\s*(\d+)` applied with
`re.search`, which returns the leftmost match.  Because a shorter digit
run can never turn a failed attempt into a successful one (the character
after a digit run is a non-digit, and can match neither `\s` nor the
operator class when the full attempt at that position failed), leftmost
matching with greedy `\d+` is equivalent to: at each start position take
the maximal digit run, skip maximal whitespace, require an operator
character, skip maximal whitespace, require a nonempty digit run. -/

/-- The operator class `[+\-*/]` of the regex. -/
def isMathOp (c : Char) : Bool := c = '+' || c = '-' || c = '*' || c = '/'

/-- Decimal value of a digit run (Python `int` on the matched group). -/
def digitsToNat (l : List Char) : Nat :=
  l.foldl (fun acc c => acc * 10 + (c.toNat - 48)) 0

/-- Attempt the regex `(\d+)\s*([+\-*/])\s*(\d+)` anchored at the head of
`l`; produce the three captured groups on success. -/
def matchMathAt (l : List Char) : Option (Nat × Char × Nat) :=
  let ds := l.takeWhile Char.isDigit
  let rest := l.dropWhile Char.isDigit
  if ds.isEmpty then none
  else
    let rest2 := rest.dropWhile Char.isWhitespace
    match rest2 with
    | [] => none
    | c :: rest3 =>
      if isMathOp c then
        let rest4 := rest3.dropWhile Char.isWhitespace
        let ds2 := rest4.takeWhile Char.isDigit
        if ds2.isEmpty then none
        else some (digitsToNat ds, c, digitsToNat ds2)
      else none

/-- Search of the math pattern, as `re.search` performs it: try every start position from the
left, return the first (leftmost) successful match. -/
def searchMath : List Char → Option (Nat × Char × Nat)
  | [] => none
  | c :: rest =>
    match matchMathAt (c :: rest) with
    | some m => some m
    | none => searchMath rest

/-- Model of `SignInManager.calculate_math_answer`: search for the pattern,
evaluate with Python integer arithmetic (`//` floor division; both
operands are digit runs, hence nonnegative, so `//` is `Nat` division).
`ZeroDivisionError` is caught by the surrounding `except` and turned
into `None`; an absent match returns `None`. -/
def calculate_math_answer (question : String) : Option Int :=
  match searchMath question.data with
  | none => none
  | some (num1, op, num2) =>
    if op = '+' then some ((num1 : Int) + num2)
    else if op = '-' then some ((num1 : Int) - num2)
    else if op = '*' then some ((num1 : Int) * num2)
    else if op = '/' then
      if num2 = 0 then none else some ((num1 / num2 : Nat) : Int)
    else none

/-! ## Embedding of `src/automation/signin.py` — `_check_signin_status`

The page is abstracted to: whether the "system busy" banner shows
(`_check_system_busy`), whether the sign-button area `div.ddpc_sign_btna`
resolves, and the `<a>` buttons inside it, each with its `class`
attribute (`get_attribute("class") or ""`) and stripped text. -/

/-- The three values of the signin status check. -/
inductive SigninStatus where
  | already_signed
  | need_signin
  | unknown
deriving DecidableEq, Repr

/-- An `<a>` element of the sign-button area: `class` attribute and text. -/
structure SignButton where
  cls : String
  text : String
deriving DecidableEq, Repr

/-- The button scan of `_check_signin_status` (lines 603-629): for each
button in order, a class containing `ddpc_sign_btn_grey` answers
`already_signed` when the text contains the already-signed phrase (and
is skipped otherwise); failing the grey test, a class containing
`ddpc_sign_btn_red` answers `need_signin`; a scan that classifies no
button answers `unknown`. -/
def classifyButtons : List SignButton → SigninStatus
  | [] => SigninStatus.unknown
  | b :: rest =>
    if strContains b.cls "ddpc_sign_btn_grey" then
      if strContains b.text "今日已签到" then SigninStatus.already_signed
      else classifyButtons rest
    else if strContains b.cls "ddpc_sign_btn_red" then SigninStatus.need_signin
    else classifyButtons rest

/-- Model of `SignInManager._check_signin_status`: a busy banner or a missing
sign-button area yields `unknown`; otherwise the buttons are scanned. -/
def check_signin_status (busy : Bool) (signArea : Option (List SignButton)) :
    SigninStatus :=
  if busy then SigninStatus.unknown
  else
    match signArea with
    | none => SigninStatus.unknown
    | some buttons => classifyButtons buttons

/-! ## Embedding of `src/browser/element_finder.py` — `find_by_selectors`

A selector starting with `//` is located by XPath, any other by CSS
(`selector.startswith("//")`).  The DOM is abstracted to a resolution
environment mapping each (kind, selector) pair to the element the
`WebDriverWait ... presence_of_element_located` call produces within the
timeout, if any; the element carries its `is_displayed()` flag.  An
element that is present but not displayed is skipped and the next
selector is tried; so is a selector that times out. -/

/-- How a selector string is interpreted. -/
inductive SelKind where
  | css
  | xpath
deriving DecidableEq, Repr

/-- The leading-`//` convention of `find_by_selectors`. -/
def selKindOf (s : String) : SelKind :=
  if ("//".data).isPrefixOf s.data then SelKind.xpath else SelKind.css

/-- An abstract DOM element: identity plus its `is_displayed()` result. -/
structure Elem where
  id : Nat
  displayed : Bool
deriving DecidableEq, Repr

/-- A DOM resolution environment: what each located selector yields. -/
def DomEnv : Type := SelKind → String → Option Elem

/-- Model of `ElementFinder.find_by_selectors`: try the selectors in order,
return the first that resolves to a displayed element, `None` after all
selectors are exhausted. -/
def find_by_selectors (env : DomEnv) : List String → Option Elem
  | [] => none
  | s :: rest =>
    match env (selKindOf s) s with
    | some e => if e.displayed then some e else find_by_selectors env rest
    | none => find_by_selectors env rest

/-- Whether a selector yields a displayed element under `env`. -/
def visibleIn (env : DomEnv) (s : String) : Bool :=
  match env (selKindOf s) s with
  | some e => e.displayed
  | none => false

/-! ## Embedding of `src/automation/signin.py` — `login` and
`src/core/app.py` — `_login_with_retry`

`login()` is abstracted to its decision tail (lines 396-415): the page
after submitting the form determines `check_login_status()` and
`check_login_error_message()`.  The whole body sits inside one
`try ... except Exception: return False`; the account-lockout `raise` at
line 408 is inside that same `try`, so it is caught by the same function in
its own `except` clause at line 413. -/

/-- The page observations `login()` makes after submitting the form. -/
structure LoginPage where
  loginOk : Bool
  errorMessage : Option String

/-- The body of the `try` block of `login()` after the submit (lines
396-411): success returns `True`; on failure, an error message
containing the lockout phrase raises `Exception("账号锁定: ...")`,
anything else returns `False`. -/
def loginTryBody (p : LoginPage) : Except String Bool :=
  if p.loginOk then Except.ok true
  else
    match p.errorMessage with
    | some msg =>
      if strContains msg "密码错误次数过多" then
        Except.error ("账号锁定: " ++ msg)
      else Except.ok false
    | none => Except.ok false

/-- Result of `SignInManager.login` as its caller observes it: the own
`except Exception` clause of the function (lines 413-415) catches the lockout raise and
returns `False`, so `login()` never propagates an exception. -/
def loginResult (p : LoginPage) : Except String Bool :=
  match loginTryBody p with
  | Except.ok b => Except.ok b
  | Except.error _ => Except.ok false

/-- Model of `AutoSignApp._login_with_retry`, fuel-indexed.  `oracle k` is the
page state seen by the `k`-th `login()` call (0-based).  Returns the
loop result, the final `RetryManager` state, and the number of `login()`
calls performed.  The `Except.error` arm embeds the `except` branch of
the loop (app.py lines 416-427), including its lockout early return. -/
def login_with_retry_aux (oracle : Nat → LoginPage) :
    Nat → RetryManager → Nat → Bool × RetryManager × Nat
  | 0, m, k => (false, m, k)
  | fuel + 1, m, k =>
    let r := m.can_retry "login"
    if r.1 then
      match loginResult (oracle k) with
      | Except.ok true => (true, r.2.reset "login", k + 1)
      | Except.ok false => login_with_retry_aux oracle fuel r.2 (k + 1)
      | Except.error e =>
        if strContains e "账号锁定" || strContains e "密码错误次数过多" then
          (false, r.2, k + 1)
        else login_with_retry_aux oracle fuel r.2 (k + 1)
    else (false, r.2, k)

/-- Model of `AutoSignApp._login_with_retry` on a manager.  `max_retries + 1`
iterations always reach the own exit of the loop (the counter strictly
increases, so `can_retry` turns false by then at the latest). -/
def login_with_retry (oracle : Nat → LoginPage) (m : RetryManager) :
    Bool × RetryManager × Nat :=
  login_with_retry_aux oracle (m.max_retries + 1) m 0

/-! ## Embedding of `src/automation/signin.py` — `_verify_signin_success` and `sign_in`

The confirmation loop `for attempt in range(max_retries)` (lines
786-864) is embedded with the attempt index and a fuel argument that
starts at `max_retries` (each iteration consumes one unit, exactly like
the `range`).  What the page shows at attempt `i` — the busy banner, the
signin status, and the outcome of `_perform_signin_action` if the loop
re-attempts the click at that point — is an environment `rounds : Nat →
VerifyRound`.  The recursive call back into `_perform_signin_action`
(itself ending in `_verify_signin_success`) is abstracted by that
outcome bit, since the claims concern only the control flow of the loop.  The
loop also records an event trace: page refreshes, backoff waits with
their durations, status checks, and click re-attempts. -/

/-- What attempt `i` of the confirmation loop observes. -/
structure VerifyRound where
  busy : Bool
  status : SigninStatus
  reattemptOk : Bool

/-- Observable steps of the confirmation loop. -/
inductive VerifyEvent where
  | refresh
  | busyWait (secs : Nat)
  | statusCheck (s : SigninStatus)
  | reattemptWait (secs : Nat)
  | signinReattempt (ok : Bool)
deriving DecidableEq, Repr

/-- One pass of `_verify_signin_success` from attempt index `i` with the
given fuel (`max_retries - i` at entry): refresh, busy check with
backoff `(i+1)*5` seconds on non-final attempts, status re-check, and on
`need_signin`/`unknown` at a non-final attempt a `(i+1)*2` second wait
followed by a full re-attempt of the signin click. -/
def verify_signin_success_aux (rounds : Nat → VerifyRound) (maxR : Nat) :
    Nat → Nat → Bool × List VerifyEvent
  | _, 0 => (false, [])
  | i, fuel + 1 =>
    let r := rounds i
    if r.busy then
      if i < maxR - 1 then
        let res := verify_signin_success_aux rounds maxR (i + 1) fuel
        (res.1, VerifyEvent.refresh :: VerifyEvent.busyWait ((i + 1) * 5) :: res.2)
      else (false, [VerifyEvent.refresh])
    else
      match r.status with
      | SigninStatus.already_signed =>
        (true, [VerifyEvent.refresh, VerifyEvent.statusCheck SigninStatus.already_signed])
      | SigninStatus.need_signin =>
        if i < maxR - 1 then
          if r.reattemptOk then
            (true, [VerifyEvent.refresh, VerifyEvent.statusCheck SigninStatus.need_signin,
                    VerifyEvent.reattemptWait ((i + 1) * 2), VerifyEvent.signinReattempt true])
          else
            let res := verify_signin_success_aux rounds maxR (i + 1) fuel
            (res.1, VerifyEvent.refresh :: VerifyEvent.statusCheck SigninStatus.need_signin ::
                    VerifyEvent.reattemptWait ((i + 1) * 2) ::
                    VerifyEvent.signinReattempt false :: res.2)
        else (false, [VerifyEvent.refresh, VerifyEvent.statusCheck SigninStatus.need_signin])
      | SigninStatus.unknown =>
        if i < maxR - 1 then
          if r.reattemptOk then
            (true, [VerifyEvent.refresh, VerifyEvent.statusCheck SigninStatus.unknown,
                    VerifyEvent.reattemptWait ((i + 1) * 2), VerifyEvent.signinReattempt true])
          else
            let res := verify_signin_success_aux rounds maxR (i + 1) fuel
            (res.1, VerifyEvent.refresh :: VerifyEvent.statusCheck SigninStatus.unknown ::
                    VerifyEvent.reattemptWait ((i + 1) * 2) ::
                    VerifyEvent.signinReattempt false :: res.2)
        else (false, [VerifyEvent.refresh, VerifyEvent.statusCheck SigninStatus.unknown])

/-- Model of `SignInManager._verify_signin_success` (default `max_retries = 3`):
run the confirmation loop from attempt 0; a loop that exhausts its
`range` returns `False` (line 864). -/
def verify_signin_success (rounds : Nat → VerifyRound) (maxR : Nat) :
    Bool × List VerifyEvent :=
  verify_signin_success_aux rounds maxR 0 maxR

/-- Model of `SignInManager.sign_in` (lines 536-573), abstracted over: whether
`_navigate_to_signin_page` succeeded, the page state feeding
`_check_signin_status`, and the outcome of `_perform_signin_action` when
the workflow proceeds to it.  An `already_signed` status returns `True`;
`need_signin` proceeds to the sign action; any other status logs
"cannot determine signin status" and returns `False`. -/
def sign_in (navOk : Bool) (busy : Bool) (signArea : Option (List SignButton))
    (performOutcome : Bool) : Bool :=
  if !navOk then false
  else
    match check_signin_status busy signArea with
    | SigninStatus.already_signed => true
    | SigninStatus.need_signin => performOutcome
    | SigninStatus.unknown => false

/-! ## Embedding of `src/notifications/telegram.py` — `send_batch_notification` -/

/-- An attachment descriptor together with the environment facts the
batch loop consults: `attachment.get("type", "")`,
`attachment.get("path", "")`, whether `os.path.exists(path)` holds, and
whether the corresponding `send_*` call would succeed. -/
structure Attachment where
  atype : String
  path : String
  fileExists : Bool
  sendOk : Bool

/-- One iteration of the attachment loop (lines 547-592): empty path,
missing file and unknown type are counted failed; a recognized type
(`screenshot`, `log`, `html`, `document`) dispatches the send and counts
its result. -/
def attachmentSent (a : Attachment) : Bool :=
  if a.path = "" then false
  else if !a.fileExists then false
  else if a.atype = "screenshot" then a.sendOk
  else if a.atype = "log" then a.sendOk
  else if a.atype = "html" then a.sendOk
  else if a.atype = "document" then a.sendOk
  else false

/-- Model of `TelegramNotifier.send_batch_notification`: send the primary message
first and return `False` if that fails; then run the attachment loop,
which only accumulates success/failure counts for logging; finally
`return success` — the result of the primary send — regardless of the
attachment outcomes. -/
def send_batch_notification (primaryOk : Bool) (attachments : List Attachment) :
    Bool :=
  let success := primaryOk
  if !success then false
  else
    let _stats : Nat × Nat :=
      attachments.foldl
        (fun acc a => if attachmentSent a then (acc.1 + 1, acc.2) else (acc.1, acc.2 + 1))
        (0, 0)
    success

/-! ## Embedding of `src/notifications/telegram.py` — message formatting -/

/-- Replace every occurrence of the single character `c` by `\c`
(Python `text.replace(c, "\\" + c)` for a one-character `c`). -/
def replaceChar (s : String) (c : Char) : String :=
  String.mk ((s.data.map fun x => if x = c then ['\\', x] else [x]).flatten)

/-- The special-character list of `_escape_markdown_v2` (lines 765-784). -/
def markdownV2Specials : List Char :=
  ['_', '*', '[', ']', '(', ')', '~', '`', '>', '#', '+', '-', '=', '|',
   '\x7b', '\x7d', '.', '!']

/-- Model of `TelegramNotifier._escape_markdown_v2`: successively replace each
special character by its backslash-escaped form. -/
def escape_markdown_v2 (text : String) : String :=
  markdownV2Specials.foldl replaceChar text

/-- The inline escape chain applied to `task.details` in
`ExecutionSummary.to_message` (lines 75-94). -/
def detailsEscapeChars : List Char :=
  ['_', '*', '[', ']', '(', ')', '~', '`', '>', '#', '+', '-', '=', '|',
   '\x7b', '\x7d', '.', '!']

/-- The details escaping of `to_message` as a function. -/
def escapeDetails (text : String) : String :=
  detailsEscapeChars.foldl replaceChar text

/-- Model of `TaskResult` (telegram.py lines 16-28); the timestamp plays no part
in `to_message` and is omitted. -/
structure TaskResult where
  task_type : String
  success : Bool
  message : String
  details : Option String

/-- Model of `ExecutionSummary` (telegram.py lines 31-40). -/
structure ExecutionSummary where
  username : String
  start_time : String
  end_time : String
  total_duration : String
  tasks : List TaskResult
  overall_success : Bool

/-- Python `s.split()[i]` for the space-separated datetime strings of the
summary: split on runs of spaces, discard empties, index `i` (an
out-of-range index is absent rather than an exception here; the
formatter is only applied to two-part datetime strings). -/
def splitPart (s : String) (i : Nat) : String :=
  String.mk (((s.data.splitOn ' ').filter fun p => p ≠ []).getD i [])

/-- The per-task lines of `to_message` (lines 64-95): emoji, translated
task name, the task message in a code span, and — when `task.details` is
truthy (neither `None` nor empty) — the escaped details in italics. -/
def taskLine (t : TaskResult) : String :=
  let task_emoji := if t.success then "✅" else "❌"
  let task_name :=
    if t.task_type = "signin" then "签到"
    else if t.task_type = "reply" then "回帖"
    else if t.task_type = "browse" then "拟真浏览"
    else t.task_type
  let base := task_emoji ++ " *" ++ task_name ++ ":* `" ++ t.message ++ "`\n"
  match t.details with
  | some d => if d = "" then base else base ++ "  _" ++ escapeDetails d ++ "_\n"
  | none => base

/-- Python `str.strip()` on both ends (whitespace as judged by
`Char.isWhitespace`, which covers the characters this message can end
with). -/
def pyStrip (s : String) : String :=
  String.mk
    (((s.data.dropWhile Char.isWhitespace).reverse.dropWhile Char.isWhitespace).reverse)

/-- Model of `ExecutionSummary.to_message` (lines 42-97): the header f-string
followed by one block per task, then `strip()`. -/
def to_message (s : ExecutionSummary) : String :=
  let status_emoji := if s.overall_success then "✅" else "❌"
  let status_text := if s.overall_success then "成功" else "失败"
  let success_count := (s.tasks.filter fun t => t.success).length
  let total_count := s.tasks.length
  let header :=
    "*98tang\\-autosign 执行报告*\n\n*账号:* `" ++ s.username ++
    "`\n*日期:* `" ++ splitPart s.start_time 0 ++
    "`\n*开始时间:* `" ++ splitPart s.start_time 1 ++
    "`\n*结束时间:* `" ++ splitPart s.end_time 1 ++
    "`\n*总耗时:* `" ++ s.total_duration ++
    "`\n*执行状态:* " ++ status_emoji ++ " *" ++ status_text ++
    "*\n*任务统计:* `" ++ toString success_count ++ "/" ++ toString total_count ++
    "` 成功\n\n*任务详情:*\n"
  pyStrip (s.tasks.foldl (fun acc t => acc ++ taskLine t) header)

/-- The per-character escaping a list `cs` of special characters induces:
a character in `cs` becomes backslash-plus-itself, others are kept. -/
def escapeSpecChar (cs : List Char) (x : Char) : List Char :=
  if x ∈ cs then ['\\', x] else [x]

/-! ## Concrete inputs used by witnesses and counterexamples -/

/-- A post-submit page showing the account-lockout error text. -/
def lockedPage : LoginPage :=
  { loginOk := false, errorMessage := some "密码错误次数过多，账号已被临时锁定" }

/-- A confirmation-loop environment that always shows the busy banner. -/
def allBusyRounds : Nat → VerifyRound :=
  fun _ => { busy := true, status := SigninStatus.unknown, reattemptOk := false }

/-- A confirmation-loop environment that always reads `need_signin` and
whose click re-attempts always fail. -/
def allNeedRounds : Nat → VerifyRound :=
  fun _ => { busy := false, status := SigninStatus.need_signin, reattemptOk := false }

/-- A confirmation-loop environment that reads `unknown` and whose click
re-attempt succeeds. -/
def unknownOkRounds : Nat → VerifyRound :=
  fun _ => { busy := false, status := SigninStatus.unknown, reattemptOk := true }

/-- A confirmation-loop environment that reads `unknown` and whose click
re-attempts fail. -/
def unknownFailRounds : Nat → VerifyRound :=
  fun _ => { busy := false, status := SigninStatus.unknown, reattemptOk := false }

/-- Sign-button area: a grey already-signed button listed before a red
button. -/
def greyThenRed : List SignButton :=
  [{ cls := "ddpc_sign_btn_grey", text := "今日已签到" },
   { cls := "ddpc_sign_btn_red", text := "点击签到" }]

/-- An execution summary whose user-supplied fields carry the MarkdownV2
special character `_`. -/
def exSummary : ExecutionSummary :=
  { username := "a_b"
    start_time := "2025-01-01 08:00:00"
    end_time := "2025-01-01 08:05:00"
    total_duration := "5分钟"
    tasks := [{ task_type := "signin", success := true, message := "msg",
                details := some "d_e" }]
    overall_success := true }

/-- A DOM environment for the element-finder witness: of the three
selectors only the third resolves to a displayed element. -/
def thirdOnlyEnv : DomEnv := fun _ s =>
  if s = "#c" then some { id := 3, displayed := true } else none

/-- Trace membership test: is the event a refresh? -/
def isRefreshEvent : VerifyEvent → Bool
  | VerifyEvent.refresh => true
  | _ => false

/-- Trace membership test: is the event a status re-check? -/
def isStatusCheckEvent : VerifyEvent → Bool
  | VerifyEvent.statusCheck _ => true
  | _ => false

end AutoSign

namespace AutoSign

/-- C2: the claim is false as stated: the input "5 / 0 = ?" contains the
arithmetic pattern (the regex matches (5, '/', 0)), yet
`calculate_math_answer` returns no integer at all rather than a
floor-division result. -/
theorem C2_counterexample :
    searchMath ("5 / 0 = ?").data = some (5, '/', 0) ∧
    calculate_math_answer "5 / 0 = ?" = none := by
  constructor <;> decide

/-- C2 (amended): on the leftmost regex match `a op b`,
`calculate_math_answer` returns `a + b`, `a - b`, `a * b`, or — when the
divisor is nonzero — the floor quotient `a / b`; division by zero and
pattern-free inputs return `none`; in particular "12 + 7 = ?" gives 19
and "20 / 4 = ?" gives 5. -/
theorem C2_math_answer (s : String) :
    (∀ a b : Nat, searchMath s.data = some (a, '+', b) →
      calculate_math_answer s = some ((a : Int) + b)) ∧
    (∀ a b : Nat, searchMath s.data = some (a, '-', b) →
      calculate_math_answer s = some ((a : Int) - b)) ∧
    (∀ a b : Nat, searchMath s.data = some (a, '*', b) →
      calculate_math_answer s = some ((a : Int) * b)) ∧
    (∀ a b : Nat, searchMath s.data = some (a, '/', b) → b ≠ 0 →
      calculate_math_answer s = some ((a / b : Nat) : Int)) ∧
    (searchMath s.data = none → calculate_math_answer s = none) ∧
    calculate_math_answer "12 + 7 = ?" = some 19 ∧
    calculate_math_answer "20 / 4 = ?" = some 5 := by
  refine ⟨?_, ?_, ?_, ?_, ?_, by decide, by decide⟩
  · intro a b h; simp [calculate_math_answer, h]
  · intro a b h; simp [calculate_math_answer, h]
  · intro a b h; simp [calculate_math_answer, h]
  · intro a b h hb; simp [calculate_math_answer, h, hb]
  · intro h; simp [calculate_math_answer, h]

/-- Witness for `C2_math_answer`: its hypotheses are satisfiable on
concrete inputs. -/
theorem C2_math_answer_witness :
    calculate_math_answer "12 + 7 = ?" = some 19 ∧
    calculate_math_answer "20 / 4 = ?" = some 5 ∧
    calculate_math_answer "no math here" = none := by
  refine ⟨(C2_math_answer "12 + 7 = ?").1 12 7 (by decide) |>.trans (by decide),
          ((C2_math_answer "20 / 4 = ?").2.2.2.1 20 4 (by decide) (by decide)).trans (by decide),
          (C2_math_answer "no math here").2.2.2.2.1 (by decide)⟩

/-- C10: a matched division with zero right operand yields `none`: the
`ZeroDivisionError` branch is converted into the no-answer result. -/
theorem C10_div_zero (s : String) (a : Nat)
    (h : searchMath s.data = some (a, '/', 0)) :
    calculate_math_answer s = none := by
  simp [calculate_math_answer, h]

/-- Witness for `C10_div_zero` at the input "5 / 0 = ?". -/
theorem C10_div_zero_witness :
    calculate_math_answer "5 / 0 = ?" = none :=
  C10_div_zero "5 / 0 = ?" 5 (by decide)

end AutoSign

namespace AutoSign

/-- Calling `can_retry` preserves the configured maximum. -/
theorem can_retry_max (m : RetryManager) (op : String) :
    ((m.can_retry op).2).max_retries = m.max_retries := rfl

/-- Calling `can_retry` increments the counter of the operation. -/
theorem can_retry_counters (m : RetryManager) (op : String) :
    ((m.can_retry op).2).counters op = m.counters op + 1 := by
  simp [RetryManager.can_retry]

/-- The flag `can_retry` returns says whether the incremented counter is within the cap. -/
theorem can_retry_fst (m : RetryManager) (op : String) :
    (m.can_retry op).1 = decide (m.counters op + 1 ≤ m.max_retries) := rfl

/-- Calling `reset` zeroes the counter of the operation. -/
theorem reset_counters (m : RetryManager) (op : String) :
    (m.reset op).counters op = 0 := by
  simp [RetryManager.reset]

/-- Loop invariant of `_login_with_retry`: starting from a manager whose
`login` counter equals the number `k` of `login()` calls already made
(with `k ≤ max` and enough fuel), the loop makes at most `max` calls in
total, leaves the stored counter at most `max + 1`, and leaves it at `0`
on success. -/
theorem login_with_retry_aux_spec (oracle : Nat → LoginPage) (max : Nat) :
    ∀ (fuel : Nat) (m : RetryManager) (k : Nat),
      m.max_retries = max → m.counters "login" = k → k ≤ max →
      max + 1 - k ≤ fuel →
      (login_with_retry_aux oracle fuel m k).2.2 ≤ max ∧
      (login_with_retry_aux oracle fuel m k).2.1.counters "login" ≤ max + 1 ∧
      ((login_with_retry_aux oracle fuel m k).1 = true →
        (login_with_retry_aux oracle fuel m k).2.1.counters "login" = 0) := by
  intro fuel
  induction fuel with
  | zero =>
    intro m k hmax hcnt hk hfuel
    omega
  | succ n ih =>
    intro m k hmax hcnt hk hfuel
    by_cases hok : k + 1 ≤ max
    · have h2 : (m.can_retry "login").1 = true := by
        rw [can_retry_fst, hcnt, hmax]; exact decide_eq_true hok
      cases hres : loginResult (oracle k) with
      | ok b =>
        cases b with
        | true =>
          simp [login_with_retry_aux, h2, hres, reset_counters]
          exact hok
        | false =>
          have hrec := ih (m.can_retry "login").2 (k + 1)
            (by rw [can_retry_max, hmax]) (by rw [can_retry_counters, hcnt]) hok
            (by omega)
          simpa [login_with_retry_aux, h2, hres] using hrec
      | error e =>
        by_cases hlock :
            (strContains e "账号锁定" || strContains e "密码错误次数过多") = true
        · have hcc : ((m.can_retry "login").2).counters "login" = k + 1 := by
            rw [can_retry_counters, hcnt]
          simp [login_with_retry_aux, h2, hres, hlock, hcc]
          omega
        · have hrec := ih (m.can_retry "login").2 (k + 1)
            (by rw [can_retry_max, hmax]) (by rw [can_retry_counters, hcnt]) hok
            (by omega)
          simpa [login_with_retry_aux, h2, hres,
                 Bool.not_eq_true _ ▸ hlock] using hrec
    · have h2 : (m.can_retry "login").1 = false := by
        rw [can_retry_fst, hcnt, hmax]
        exact decide_eq_false hok
      have hcc : ((m.can_retry "login").2).counters "login" = k + 1 := by
        rw [can_retry_counters, hcnt]
      simp [login_with_retry_aux, h2, hcc]
      omega

/-- C1: the claim is false as stated: four `can_retry("login")` calls on
a fresh manager with `max_retries = 3` leave the stored counter at `4`,
which exceeds the configured maximum. -/
theorem C1_counterexample :
    (runCalls (RetryManager.init 3)
      [RMCall.can "login", RMCall.can "login", RMCall.can "login",
       RMCall.can "login"]).counters "login" = 4 ∧
    ¬((runCalls (RetryManager.init 3)
      [RMCall.can "login", RMCall.can "login", RMCall.can "login",
       RMCall.can "login"]).counters "login" ≤ 3) := by
  constructor <;> decide

/-- C1 (amended): driven by the login retry loop, the stored counter
never exceeds `max_retries + 1` (it reaches `max_retries + 1` exactly
when `can_retry` denies the retry and the loop stops); the number of
`login()` attempts never exceeds `max_retries`; and after a successful
login the `reset` call of the loop leaves the counter at zero — as does `reset`
on any manager. -/
theorem C1_retry_invariant (max : Nat) (oracle : Nat → LoginPage) :
    (login_with_retry oracle (RetryManager.init max)).2.2 ≤ max ∧
    (login_with_retry oracle (RetryManager.init max)).2.1.counters "login"
      ≤ max + 1 ∧
    ((login_with_retry oracle (RetryManager.init max)).1 = true →
      (login_with_retry oracle (RetryManager.init max)).2.1.counters "login" = 0) ∧
    (∀ (m : RetryManager) (op : String), (m.reset op).counters op = 0) := by
  have h := login_with_retry_aux_spec oracle max (max + 1)
    (RetryManager.init max) 0 rfl rfl (Nat.zero_le _) (by omega)
  exact ⟨h.1, h.2.1, h.2.2, fun m op => reset_counters m op⟩

/-- Witness for `C1_retry_invariant`: a run whose first login succeeds
satisfies the success implication with counter reset to zero. -/
theorem C1_retry_invariant_witness :
    (login_with_retry (fun _ => LoginPage.mk true none)
      (RetryManager.init 3)).1 = true ∧
    (login_with_retry (fun _ => LoginPage.mk true none)
      (RetryManager.init 3)).2.1.counters "login" = 0 ∧
    (login_with_retry (fun _ => LoginPage.mk true none)
      (RetryManager.init 3)).2.2 ≤ 3 := by
  refine ⟨by decide, ?_, (C1_retry_invariant 3 (fun _ => LoginPage.mk true none)).1⟩
  exact (C1_retry_invariant 3 (fun _ => LoginPage.mk true none)).2.2.1 (by decide)

/-- C5: the code contradicts the claim (and its own comment "如果是账号锁定，
不要继续重试"): on a lockout page `login()` does raise the lockout
exception internally, but the raise sits inside the own
`try`/`except` of `login()`, which catches it and returns `False`; the retry loop
therefore never sees the exception, its lockout branch is dead, and with
`max_retries = 3` a permanently locked account is attempted 3 times
instead of once. -/
theorem C5_lockout_retried :
    loginTryBody lockedPage =
      Except.error "账号锁定: 密码错误次数过多，账号已被临时锁定" ∧
    loginResult lockedPage = Except.ok false ∧
    (∀ p : LoginPage, ∃ b : Bool, loginResult p = Except.ok b) ∧
    (login_with_retry (fun _ => lockedPage) (RetryManager.init 3)).1 = false ∧
    (login_with_retry (fun _ => lockedPage) (RetryManager.init 3)).2.2 = 3 := by
  refine ⟨rfl, rfl, ?_, by decide, by decide⟩
  intro p
  cases h : loginTryBody p with
  | ok b => exact ⟨b, by simp [loginResult, h]⟩
  | error e => exact ⟨false, by simp [loginResult, h]⟩

/-- C4: `send_batch_notification` fails exactly when the primary message
send fails: attachment outcomes never change the overall result. -/
theorem C4_batch_primary_decides (primaryOk : Bool) (atts : List Attachment) :
    (primaryOk = false → send_batch_notification primaryOk atts = false) ∧
    (primaryOk = true → send_batch_notification primaryOk atts = true) := by
  cases primaryOk <;> simp [send_batch_notification]

/-- Witness for `C4_batch_primary_decides`: a successful primary send
with an all-failing attachment list still reports success, and a failed
primary send with an all-succeeding attachment list reports failure. -/
theorem C4_batch_primary_decides_witness :
    send_batch_notification true
      [Attachment.mk "screenshot" "/tmp/a.png" true false,
       Attachment.mk "log" "" true true,
       Attachment.mk "unknown" "/tmp/b" true true] = true ∧
    send_batch_notification false
      [Attachment.mk "log" "/tmp/c.log" true true] = false := by
  exact ⟨(C4_batch_primary_decides true
            [Attachment.mk "screenshot" "/tmp/a.png" true false,
             Attachment.mk "log" "" true true,
             Attachment.mk "unknown" "/tmp/b" true true]).2 rfl,
         (C4_batch_primary_decides false
            [Attachment.mk "log" "/tmp/c.log" true true]).1 rfl⟩

/-- Each pass of the confirmation loop performs at most one page refresh
per remaining `range` step. -/
theorem verify_aux_refresh_le (rounds : Nat → VerifyRound) (maxR : Nat) :
    ∀ (fuel i : Nat),
      ((verify_signin_success_aux rounds maxR i fuel).2.filter
        isRefreshEvent).length ≤ fuel := by
  intro fuel
  induction fuel with
  | zero => intro i; simp [verify_signin_success_aux]
  | succ n ih =>
    intro i
    simp only [verify_signin_success_aux]
    split
    · split
      · have := ih (i + 1)
        simp [List.filter_cons, isRefreshEvent]
        omega
      · simp [List.filter_cons, isRefreshEvent]
    · split
      · simp [List.filter_cons, isRefreshEvent]
      · split
        · split
          · simp [List.filter_cons, isRefreshEvent]
          · have := ih (i + 1)
            simp [List.filter_cons, isRefreshEvent]
            omega
        · simp [List.filter_cons, isRefreshEvent]
      · split
        · split
          · simp [List.filter_cons, isRefreshEvent]
          · have := ih (i + 1)
            simp [List.filter_cons, isRefreshEvent]
            omega
        · simp [List.filter_cons, isRefreshEvent]

/-- Each pass of the confirmation loop re-checks the signin status at
most once per remaining `range` step. -/
theorem verify_aux_statuscheck_le (rounds : Nat → VerifyRound) (maxR : Nat) :
    ∀ (fuel i : Nat),
      ((verify_signin_success_aux rounds maxR i fuel).2.filter
        isStatusCheckEvent).length ≤ fuel := by
  intro fuel
  induction fuel with
  | zero => intro i; simp [verify_signin_success_aux]
  | succ n ih =>
    intro i
    simp only [verify_signin_success_aux]
    split
    · split
      · have := ih (i + 1)
        simp [List.filter_cons, isStatusCheckEvent]
        omega
      · simp [List.filter_cons, isStatusCheckEvent]
    · split
      · simp [List.filter_cons, isStatusCheckEvent]
      · split
        · split
          · simp [List.filter_cons, isStatusCheckEvent]
          · have := ih (i + 1)
            simp [List.filter_cons, isStatusCheckEvent]
            omega
        · simp [List.filter_cons, isStatusCheckEvent]
      · split
        · split
          · simp [List.filter_cons, isStatusCheckEvent]
          · have := ih (i + 1)
            simp [List.filter_cons, isStatusCheckEvent]
            omega
        · simp [List.filter_cons, isStatusCheckEvent]

/-- Every busy-banner backoff recorded by the confirmation loop waits
`(j+1)*5` seconds for some non-final attempt index `j`. -/
theorem verify_aux_busywait (rounds : Nat → VerifyRound) (maxR : Nat) :
    ∀ (fuel i w : Nat),
      VerifyEvent.busyWait w ∈ (verify_signin_success_aux rounds maxR i fuel).2 →
      ∃ j : Nat, j < maxR - 1 ∧ w = (j + 1) * 5 := by
  intro fuel
  induction fuel with
  | zero => intro i w h; simp [verify_signin_success_aux] at h
  | succ n ih =>
    intro i w h
    simp only [verify_signin_success_aux] at h
    revert h
    split
    · split
      · intro h
        simp only [List.mem_cons] at h
        rcases h with h | h | h
        · exact absurd h (by simp)
        · refine ⟨i, by assumption, ?_⟩
          injection h
        · exact ih (i + 1) w h
      · intro h; simp at h
    · intro h
      revert h
      split
      · intro h; simp at h
      · split
        · split
          · intro h; simp at h
          · intro h
            simp only [List.mem_cons] at h
            rcases h with h | h | h | h | h
            · exact absurd h (by simp)
            · exact absurd h (by simp)
            · exact absurd h (by simp)
            · exact absurd h (by simp)
            · exact ih (i + 1) w h
        · intro h; simp at h
      · split
        · split
          · intro h; simp at h
          · intro h
            simp only [List.mem_cons] at h
            rcases h with h | h | h | h | h
            · exact absurd h (by simp)
            · exact absurd h (by simp)
            · exact absurd h (by simp)
            · exact absurd h (by simp)
            · exact ih (i + 1) w h
        · intro h; simp at h

/-- If every attempt reads `need_signin` and every click re-attempt
fails, the confirmation loop never succeeds. -/
theorem verify_aux_need_false (rounds : Nat → VerifyRound) (maxR : Nat)
    (hr : ∀ j, rounds j =
      { busy := false, status := SigninStatus.need_signin, reattemptOk := false }) :
    ∀ (fuel i : Nat), (verify_signin_success_aux rounds maxR i fuel).1 = false := by
  intro fuel
  induction fuel with
  | zero => intro i; simp [verify_signin_success_aux]
  | succ n ih =>
    intro i
    simp [verify_signin_success_aux, hr i, ih (i + 1)]
    split <;> rfl

/-- Under persistent `need_signin` with failing re-attempts and at least
two loop attempts, the loop records a full signin click re-attempt
before giving up. -/
theorem verify_need_reattempts (rounds : Nat → VerifyRound) (maxR : Nat)
    (hmax : 2 ≤ maxR)
    (hr : ∀ j, rounds j =
      { busy := false, status := SigninStatus.need_signin, reattemptOk := false }) :
    (verify_signin_success rounds maxR).1 = false ∧
    VerifyEvent.signinReattempt false ∈ (verify_signin_success rounds maxR).2 := by
  refine ⟨verify_aux_need_false rounds maxR hr maxR 0, ?_⟩
  obtain ⟨f, rfl⟩ : ∃ f, maxR = f + 2 := ⟨maxR - 2, by omega⟩
  simp only [verify_signin_success, verify_signin_success_aux, hr 0]
  have hlt : 0 < f + 2 - 1 := by omega
  simp [hlt]

/-- C3: the claim is false as stated: at the default `max_retries = 3`,
a persistent "system busy" banner produces backoff waits of 5 and 10
seconds only — the third attempt returns failure immediately, and no
15-second wait ever occurs. -/
theorem C3_counterexample :
    verify_signin_success allBusyRounds 3 =
      (false, [VerifyEvent.refresh, VerifyEvent.busyWait 5,
               VerifyEvent.refresh, VerifyEvent.busyWait 10,
               VerifyEvent.refresh]) ∧
    VerifyEvent.busyWait 15 ∉ (verify_signin_success allBusyRounds 3).2 := by
  constructor <;> decide

/-- C3 (amended): the confirmation loop refreshes the page and re-checks
the status at most `max_retries` times; every busy backoff waits
`(j+1)*5` seconds for a non-final attempt index `j` (so 5 s and 10 s at
the default of 3, never 15 s, a busy banner on the final attempt failing
immediately); and persistent `need_signin` triggers a full re-attempt of
the signin click before the loop gives up. -/
theorem C3_confirmation_loop :
    (∀ (rounds : Nat → VerifyRound) (maxR : Nat),
      ((verify_signin_success rounds maxR).2.filter isRefreshEvent).length ≤ maxR ∧
      ((verify_signin_success rounds maxR).2.filter isStatusCheckEvent).length ≤ maxR) ∧
    (∀ (rounds : Nat → VerifyRound) (maxR w : Nat),
      VerifyEvent.busyWait w ∈ (verify_signin_success rounds maxR).2 →
      ∃ j : Nat, j < maxR - 1 ∧ w = (j + 1) * 5) ∧
    (∀ (rounds : Nat → VerifyRound) (maxR : Nat), 2 ≤ maxR →
      (∀ j, rounds j = { busy := false, status := SigninStatus.need_signin,
                         reattemptOk := false }) →
      (verify_signin_success rounds maxR).1 = false ∧
      VerifyEvent.signinReattempt false ∈ (verify_signin_success rounds maxR).2) ∧
    verify_signin_success allNeedRounds 3 =
      (false, [VerifyEvent.refresh, VerifyEvent.statusCheck SigninStatus.need_signin,
               VerifyEvent.reattemptWait 2, VerifyEvent.signinReattempt false,
               VerifyEvent.refresh, VerifyEvent.statusCheck SigninStatus.need_signin,
               VerifyEvent.reattemptWait 4, VerifyEvent.signinReattempt false,
               VerifyEvent.refresh, VerifyEvent.statusCheck SigninStatus.need_signin]) := by
  refine ⟨?_, ?_, ?_, by decide⟩
  · intro rounds maxR
    exact ⟨verify_aux_refresh_le rounds maxR maxR 0,
           verify_aux_statuscheck_le rounds maxR maxR 0⟩
  · intro rounds maxR w h
    exact verify_aux_busywait rounds maxR maxR 0 w h
  · intro rounds maxR hmax hr
    exact verify_need_reattempts rounds maxR hmax hr

/-- Witness for `C3_confirmation_loop`: its hypotheses are satisfiable —
the all-busy run realizes a busy wait, and the persistent-`need_signin`
run realizes the re-attempt-then-fail behavior. -/
theorem C3_confirmation_loop_witness :
    (∃ j : Nat, j < 3 - 1 ∧ 5 = (j + 1) * 5) ∧
    (verify_signin_success allNeedRounds 3).1 = false ∧
    VerifyEvent.signinReattempt false ∈ (verify_signin_success allNeedRounds 3).2 := by
  refine ⟨C3_confirmation_loop.2.1 allBusyRounds 3 5 (by decide), ?_, ?_⟩
  · exact (C3_confirmation_loop.2.2.1 allNeedRounds 3 (by omega) (fun j => rfl)).1
  · exact (C3_confirmation_loop.2.2.1 allNeedRounds 3 (by omega) (fun j => rfl)).2

/-- C6: the claim is false as stated: in the `sign_in` workflow an
`unknown` status is a hard abort — the workflow returns failure at once,
even though a signin attempt (had one been made) would have succeeded —
while a recognized `need_signin` status proceeds. -/
theorem C6_counterexample :
    check_signin_status false (some []) = SigninStatus.unknown ∧
    sign_in true false (some []) true = false ∧
    sign_in true false
      (some [{ cls := "ddpc_sign_btn_red", text := "点击签到" }]) true = true := by
  refine ⟨by decide, by decide, by decide⟩

/-- C6 (amended): the two workflow variants treat `unknown`
inconsistently: the initial status check in `sign_in` aborts with failure on
`unknown`, whereas the post-click confirmation loop treats `unknown` as
a soft failure — on a non-final attempt it re-attempts the signin click
(succeeding if the re-attempt succeeds), returning failure only on the
final attempt. -/
theorem C6_unknown_policy :
    (∀ (navOk busy : Bool) (area : Option (List SignButton)) (perform : Bool),
      check_signin_status busy area = SigninStatus.unknown →
      sign_in navOk busy area perform = false) ∧
    verify_signin_success unknownOkRounds 3 =
      (true, [VerifyEvent.refresh, VerifyEvent.statusCheck SigninStatus.unknown,
              VerifyEvent.reattemptWait 2, VerifyEvent.signinReattempt true]) ∧
    (verify_signin_success unknownFailRounds 3).1 = false ∧
    VerifyEvent.signinReattempt false ∈ (verify_signin_success unknownFailRounds 3).2 := by
  refine ⟨?_, by decide, by decide, by decide⟩
  intro navOk busy area perform h
  cases navOk with
  | false => rfl
  | true => simp [sign_in, h]

/-- Witness for `C6_unknown_policy`: a concrete `unknown` page makes the
initial workflow abort. -/
theorem C6_unknown_policy_witness :
    sign_in true false none true = false :=
  C6_unknown_policy.1 true false none true (by decide)

/-- C7: the claim is false as stated: with a grey already-signed button
listed before a red button, the class of some button contains the red/active
marker, yet the classifier answers `already_signed`, not `need_signin`. -/
theorem C7_counterexample :
    (∃ b ∈ greyThenRed, strContains b.cls "ddpc_sign_btn_red" = true) ∧
    check_signin_status false (some greyThenRed) = SigninStatus.already_signed ∧
    check_signin_status false (some greyThenRed) ≠ SigninStatus.need_signin := by
  refine ⟨⟨{ cls := "ddpc_sign_btn_red", text := "点击签到" }, by decide, by decide⟩,
          by decide, by decide⟩

/-- C7 (amended): the classifier scans the buttons in order and the
first classified button decides: a button whose class contains the grey
marker and whose text contains the already-signed phrase yields
`already_signed`; a button whose class lacks the grey marker but
contains the red marker yields `need_signin`; if no button matches
either rule (in particular if no button carries either marker) the
answer is `unknown`. -/
theorem C7_classifier :
    (∀ (b : SignButton) (rest : List SignButton),
      strContains b.cls "ddpc_sign_btn_grey" = true →
      strContains b.text "今日已签到" = true →
      classifyButtons (b :: rest) = SigninStatus.already_signed) ∧
    (∀ (b : SignButton) (rest : List SignButton),
      strContains b.cls "ddpc_sign_btn_grey" = false →
      strContains b.cls "ddpc_sign_btn_red" = true →
      classifyButtons (b :: rest) = SigninStatus.need_signin) ∧
    (∀ bs : List SignButton,
      (∀ b ∈ bs, strContains b.cls "ddpc_sign_btn_grey" = false ∧
                 strContains b.cls "ddpc_sign_btn_red" = false) →
      classifyButtons bs = SigninStatus.unknown) ∧
    (∀ (busy : Bool) (bs : List SignButton),
      check_signin_status busy (some bs) =
        if busy then SigninStatus.unknown else classifyButtons bs) := by
  refine ⟨?_, ?_, ?_, ?_⟩
  · intro b rest h1 h2; simp [classifyButtons, h1, h2]
  · intro b rest h1 h2; simp [classifyButtons, h1, h2]
  · intro bs h
    induction bs with
    | nil => rfl
    | cons b rest ih =>
      have hb := h b (by simp)
      simp [classifyButtons, hb.1, hb.2]
      exact ih fun x hx => h x (by simp [hx])
  · intro busy bs; cases busy <;> rfl

/-- Witness for `C7_classifier`: concrete markups realizing each rule. -/
theorem C7_classifier_witness :
    classifyButtons [{ cls := "ddpc_sign_btn_grey", text := "今日已签到" }] =
      SigninStatus.already_signed ∧
    classifyButtons [{ cls := "ddpc_sign_btn_red", text := "" }] =
      SigninStatus.need_signin ∧
    classifyButtons [{ cls := "pn pnc", text := "签到" }] =
      SigninStatus.unknown := by
  refine ⟨C7_classifier.1 { cls := "ddpc_sign_btn_grey", text := "今日已签到" } []
            (by decide) (by decide),
          C7_classifier.2.1 { cls := "ddpc_sign_btn_red", text := "" } []
            (by decide) (by decide),
          C7_classifier.2.2.1 [{ cls := "pn pnc", text := "签到" }] ?_⟩
  intro b hb
  simp at hb
  subst hb
  exact ⟨by decide, by decide⟩

/-- The first selector resolving to a displayed element decides the
result of `find_by_selectors`. -/
theorem find_first_visible (env : DomEnv) :
    ∀ (xs : List String) (s : String) (ys : List String),
      (∀ x ∈ xs, visibleIn env x = false) → visibleIn env s = true →
      find_by_selectors env (xs ++ s :: ys) = env (selKindOf s) s := by
  intro xs
  induction xs with
  | nil =>
    intro s ys _ hvis
    simp only [List.nil_append, find_by_selectors]
    unfold visibleIn at hvis
    cases henv : env (selKindOf s) s with
    | none => rw [henv] at hvis; simp at hvis
    | some e =>
      rw [henv] at hvis
      simp only at hvis
      simp [hvis]
  | cons x xs ih =>
    intro s ys hxs hvis
    have hx := hxs x (by simp)
    unfold visibleIn at hx
    have htail := ih s ys (fun a ha => hxs a (by simp [ha])) hvis
    simp only [List.cons_append, find_by_selectors]
    cases henv : env (selKindOf x) x with
    | none => exact htail
    | some e =>
      rw [henv] at hx
      simp only at hx
      simp [hx, htail]

/-- The finder `find_by_selectors` answers `None` exactly when no selector in the
list yields a displayed element. -/
theorem find_none_iff (env : DomEnv) :
    ∀ sels : List String,
      find_by_selectors env sels = none ↔
        ∀ x ∈ sels, visibleIn env x = false := by
  intro sels
  induction sels with
  | nil => simp [find_by_selectors]
  | cons x xs ih =>
    simp only [find_by_selectors]
    split
    next e henv =>
      cases hd : e.displayed with
      | true =>
        rw [if_pos rfl]
        constructor
        · intro h; exact absurd h (by simp)
        · intro h
          have hx := h x (by simp)
          unfold visibleIn at hx
          rw [henv] at hx
          simp only at hx
          rw [hd] at hx
          exact absurd hx (by simp)
      | false =>
        rw [if_neg (by simp)]
        rw [ih]
        constructor
        · intro h a ha
          rcases List.mem_cons.mp ha with rfl | ha2
          · unfold visibleIn; rw [henv]; simp only; exact hd
          · exact h a ha2
        · intro h a ha; exact h a (by simp [ha])
    next henv =>
      rw [ih]
      constructor
      · intro h a ha
        rcases List.mem_cons.mp ha with rfl | ha2
        · unfold visibleIn; rw [henv]
        · exact h a ha2
      · intro h a ha; exact h a (by simp [ha])

/-- C8: `find_by_selectors` returns the element of the first selector
that yields a visible match; the selectors after the match play no part
in the result (any environment agreeing on the prefix up to the match,
with any tail of selectors, produces the same answer); and `None` is
returned exactly when no selector in the list yields a visible match. -/
theorem C8_find_by_selectors :
    (∀ (env : DomEnv) (xs : List String) (s : String) (ys : List String),
      (∀ x ∈ xs, visibleIn env x = false) → visibleIn env s = true →
      find_by_selectors env (xs ++ s :: ys) = env (selKindOf s) s) ∧
    (∀ (env env2 : DomEnv) (xs : List String) (s : String) (ys zs : List String),
      (∀ x ∈ xs, visibleIn env x = false) → visibleIn env s = true →
      (∀ x ∈ xs, env2 (selKindOf x) x = env (selKindOf x) x) →
      env2 (selKindOf s) s = env (selKindOf s) s →
      find_by_selectors env2 (xs ++ s :: zs) =
        find_by_selectors env (xs ++ s :: ys)) ∧
    (∀ (env : DomEnv) (sels : List String),
      find_by_selectors env sels = none ↔
        ∀ x ∈ sels, visibleIn env x = false) := by
  refine ⟨fun env => find_first_visible env, ?_, fun env => find_none_iff env⟩
  intro env env2 xs s ys zs hxs hvis hagree hs
  have hxs2 : ∀ x ∈ xs, visibleIn env2 x = false := by
    intro x hx
    unfold visibleIn
    rw [hagree x hx]
    have := hxs x hx
    unfold visibleIn at this
    exact this
  have hvis2 : visibleIn env2 s = true := by
    unfold visibleIn
    rw [hs]
    unfold visibleIn at hvis
    exact hvis
  rw [find_first_visible env xs s ys hxs hvis,
      find_first_visible env2 xs s zs hxs2 hvis2, hs]

/-- Witness for `C8_find_by_selectors`: with three selectors of which
only the third resolves to a displayed element, the element of the third is
returned, and an all-missing list returns `None`. -/
theorem C8_find_by_selectors_witness :
    find_by_selectors thirdOnlyEnv ["#a", "//b", "#c"] =
      some { id := 3, displayed := true } ∧
    find_by_selectors thirdOnlyEnv ["#a", "//b"] = none := by
  constructor
  · have h := C8_find_by_selectors.1 thirdOnlyEnv ["#a", "//b"] "#c" []
      (by decide) (by decide)
    simpa using h
  · exact (C8_find_by_selectors.2.2 thirdOnlyEnv ["#a", "//b"]).mpr (by decide)

/-- Action of `replaceChar` on the character data. -/
theorem replaceChar_data (s : String) (c : Char) :
    (replaceChar s c).data =
      s.data.flatMap fun x => if x = c then ['\\', x] else [x] := rfl

/-- Sequentially replacing each character of a duplicate-free list `cs`
not containing the backslash amounts to the single-pass per-character
escaping `escapeSpecChar cs`. -/
theorem foldl_replaceChar :
    ∀ (cs : List Char), '\\' ∉ cs → cs.Nodup →
      ∀ s : String, (cs.foldl replaceChar s).data = s.data.flatMap (escapeSpecChar cs) := by
  intro cs
  induction cs with
  | nil =>
    intro _ _ s
    simp only [List.foldl_nil, escapeSpecChar, List.not_mem_nil, if_false]
    exact (List.flatMap_singleton' s.data).symm
  | cons c cs ih =>
    intro hnb hnd s
    have hnb2 : '\\' ∉ cs := fun h => hnb (by simp [h])
    have hnd2 : cs.Nodup := hnd.of_cons
    have hc : c ∉ cs := (List.nodup_cons.mp hnd).1
    calc ((c :: cs).foldl replaceChar s).data
        = (cs.foldl replaceChar (replaceChar s c)).data := by rfl
      _ = (replaceChar s c).data.flatMap (escapeSpecChar cs) := ih hnb2 hnd2 _
      _ = (s.data.flatMap fun x => if x = c then ['\\', x] else [x]).flatMap
            (escapeSpecChar cs) := by rw [replaceChar_data]
      _ = s.data.flatMap (escapeSpecChar (c :: cs)) := by
          rw [List.flatMap_assoc]
          apply List.flatMap_congr
          intro x _
          by_cases hx : x = c
          · subst hx
            simp [escapeSpecChar, hnb2, hc]
          · simp [escapeSpecChar, hx]

/-- C9: the claim is false as stated: the account name is interpolated
into the summary message unescaped — for a username `a_b` the message
handed to the send operation contains the MarkdownV2 special character
`_` bare (the substring `a_b` occurs and its escaped form `a\_b` occurs
nowhere). -/
theorem C9_counterexample :
    strContains (to_message exSummary) "a_b" = true ∧
    strContains (to_message exSummary) "a\\_b" = false := by
  constructor <;> decide

/-- C9 (amended): only the per-task detail strings are escaped before
sending: the inline chain applied to `task.details` coincides with
`_escape_markdown_v2`, which backslash-escapes exactly the 18 MarkdownV2
special characters of its list (single-pass, character by character);
the account name and the task result message are interpolated into the
message without escaping. -/
theorem C9_escaping :
    (∀ s : String, escapeDetails s = escape_markdown_v2 s) ∧
    (∀ s : String, (escape_markdown_v2 s).data =
      s.data.flatMap (escapeSpecChar markdownV2Specials)) ∧
    strContains (to_message exSummary) "d\\_e" = true ∧
    strContains (to_message exSummary) "msg" = true ∧
    strContains (to_message exSummary) "a_b" = true := by
  refine ⟨fun s => rfl, ?_, by decide, by decide, by decide⟩
  intro s
  exact foldl_replaceChar markdownV2Specials (by decide) (by decide) s

end AutoSign
